import Mathlib

/-
Shallow embedding of the asynchronous task orchestration layer of
telegram.go (TelegramService): task admission, the analysis work queue,
the per-task progress monitor, batch dispatch with cache short-circuit,
and the small text utilities.

Conventions of the embedding:
* Go strings are modelled as Lean `String`; Go `len` (byte length) is
  modelled as character count (the usernames and bounds involved are
  ASCII, where the two coincide).  All string processing is re-defined
  by structural recursion over `String.data` so that every definition
  evaluates inside the kernel.
* The persistent store (`DatabaseService`) is an external collaborator
  whose implementation is not part of this file's source; its operations
  are modelled from the spec's Task Store / User Store contracts as
  association-list state.
* Side effects (Telegram sends/edits, goroutine launches) are recorded
  as an explicit effect list.  Message formatting (the Notification
  Formatter, an external collaborator per the spec) is abstracted to
  structured payloads carrying exactly the data the Go code passes in.
* The bounded analysis channel is a capacity + buffer pair.  A Go
  `select`/`default` send is `trySend` (total, returns a success flag).
  A plain Go channel send is `blockingSend`, returning `none` when the
  channel is full: in this sequential model `none` means the sending
  goroutine waits and control does not come back.
* Wall-clock values (StartedAt, CreatedAt, elapsed-time rendering) and
  the float FUDProbability field are carried by the Go code only for
  display and are omitted from the model.
-/

/-- Task status constants (ANALYSIS_STATUS_*). -/
inductive AnalysisStatus
  | pending
  | running
  | completed
  | failed
deriving DecidableEq, Repr

/-- Task step constants (ANALYSIS_STEP_*). -/
inductive AnalysisStep
  | init
  | user_lookup
  | ticker_search
  | followers
  | followings
  | community_activity
  | claude_analysis
  | saving_results
deriving DecidableEq, Repr

/-- AnalysisTaskModel: the persisted task record (StartedAt omitted: wall clock). -/
structure AnalysisTaskModel where
  id : String
  username : String
  userID : String
  status : AnalysisStatus
  currentStep : AnalysisStep
  progressText : String
  errorMessage : String
  telegramChatID : Int
  messageID : Int
deriving DecidableEq, Repr

/-- UserModel: the fields of the user record this layer reads. -/
structure UserModel where
  id : String
  username : String
  name : String
deriving DecidableEq, Repr

/-- TweetModel: the fields of a stored tweet this layer reads (CreatedAt omitted). -/
structure TweetModel where
  id : String
  userID : String
  text : String
  inReplyToID : String
deriving DecidableEq, Repr

/-- SecondStepClaudeResponse: the cached analysis payload fields this layer
reads (FUDProbability, a float used only for display, is omitted). -/
structure SecondStepClaudeResponse where
  isFUDUser : Bool
  fudType : String
  userRiskLevel : String
  userSummary : String
deriving DecidableEq, Repr

/-- twitterapi.NewMessage as built by the analysis dispatchers (CreatedAt and
the always-empty GrandParentTweet omitted). -/
structure NewMessage where
  tweetID : String
  replyTweetID : String
  authorUserName : String
  authorName : String
  authorID : String
  text : String
  parentTweetID : String
  parentTweetAuthor : String
  parentTweetText : String
  isManualAnalysis : Bool
  forceNotification : Bool
  taskID : String
  telegramChatID : Int
deriving DecidableEq, Repr

/-- The bounded analysis channel (make(chan twitterapi.NewMessage, N)). -/
structure Channel where
  capacity : Nat
  buffer : List NewMessage
deriving DecidableEq, Repr

/-- The channel has no free slot: a plain send would wait. -/
def channelFull (ch : Channel) : Bool :=
  decide (ch.capacity ≤ ch.buffer.length)

/-- Non-blocking send: the `select dot case ch <- m dot default` pattern.
Total: it always returns, with a flag saying whether the item went in. -/
def trySend (ch : Channel) (m : NewMessage) : Channel × Bool :=
  if ch.buffer.length < ch.capacity then
    ({ ch with buffer := ch.buffer ++ [m] }, true)
  else
    (ch, false)

/-- Plain (blocking) channel send `ch <- m`.  `none` models the sender
waiting on a full channel: in this sequential model control does not
return to the caller. -/
def blockingSend (ch : Channel) (m : NewMessage) : Option Channel :=
  if ch.buffer.length < ch.capacity then
    some { ch with buffer := ch.buffer ++ [m] }
  else
    none

/- ---------- string helpers (structural, kernel-evaluable) ---------- -/

/-- Character-level whitespace test (ASCII approximation of Unicode space). -/
def isSpaceChar (c : Char) : Bool :=
  c == ' ' || c == '\t' || c == '\n' || c == '\r'

/-- strings.TrimSpace. -/
def trimSpace (s : String) : String :=
  String.mk (((s.data.dropWhile isSpaceChar).reverse.dropWhile isSpaceChar).reverse)

/-- strings.TrimPrefix(s, "@"): strip at most one leading at-sign. -/
def stripLeadingAt (s : String) : String :=
  match s.data with
  | '@' :: rest => String.mk rest
  | _ => s

/-- Byte length of a Go string, modelled as character count. -/
def strLen (s : String) : Nat :=
  s.data.length

/-- strings.Contains(s, single character). -/
def strHasChar (s : String) (c : Char) : Bool :=
  s.data.contains c

/-- strings.Split on a single-character separator, character-list level. -/
def splitCharsOn (sep : Char) : List Char → List (List Char)
  | [] => [[]]
  | c :: rest =>
    let r := splitCharsOn sep rest
    if c == sep then
      [] :: r
    else
      match r with
      | h :: t => (c :: h) :: t
      | [] => [[c]]

/-- strings.Split(s, sep) for a single-character separator. -/
def splitString (sep : Char) (s : String) : List String :=
  (splitCharsOn sep s.data).map String.mk

/-- strings.Join(args, " "). -/
def joinWithSpace : List String → String
  | [] => ""
  | [x] => x
  | x :: xs => x ++ " " ++ joinWithSpace xs

/- ---------- store state (external collaborator, spec-modelled) ---------- -/

/-- Association-list lookup keyed by string. -/
def lookupA {α : Type} : List (String × α) → String → Option α
  | [], _ => none
  | (k', v) :: rest, k => if k' = k then some v else lookupA rest k

/-- Association-list pointwise update of the entries with the given key. -/
def adjustA {α : Type} : List (String × α) → String → (α → α) → List (String × α)
  | [], _, _ => []
  | (k', v) :: rest, k, f =>
    if k' = k then (k', f v) :: adjustA rest k f else (k', v) :: adjustA rest k f

/-- Modelled from the spec: the persistent store state behind
DatabaseService (task records, user records, latest analysable tweet per
username, fresh cached analyses keyed by user ID, message history per
username).  The DatabaseService implementation itself is an external
collaborator (spec Task Store / User-Content Store). -/
structure DBState where
  tasks : List (String × AnalysisTaskModel)
  users : List (String × UserModel)
  tweets : List (String × TweetModel)
  cachedAnalyses : List (String × SecondStepClaudeResponse)
  userMessages : List (String × List TweetModel)
deriving DecidableEq, Repr

/-- Modelled from the spec: Task Store `get(id)` (GetAnalysisTask). -/
def getAnalysisTask (db : DBState) (taskID : String) : Option AnalysisTaskModel :=
  lookupA db.tasks taskID

/-- Modelled from the spec: Task Store `create(task)` (CreateAnalysisTask);
persistence failure is not modelled (the store is treated as healthy). -/
def createAnalysisTask (db : DBState) (task : AnalysisTaskModel) : DBState :=
  { db with tasks := db.tasks ++ [(task.id, task)] }

/-- Modelled from the spec: Task Store `update(task)` (UpdateAnalysisTask),
replacing the whole record with the given one. -/
def updateAnalysisTask (db : DBState) (task : AnalysisTaskModel) : DBState :=
  { db with tasks := adjustA db.tasks task.id (fun _ => task) }

/-- Modelled from the spec: Task Store `updateProgress(id, step, text)`
(UpdateAnalysisTaskProgress). -/
def updateAnalysisTaskProgress (db : DBState) (taskID : String)
    (step : AnalysisStep) (text : String) : DBState :=
  { db with tasks := (adjustA db.tasks taskID
      (fun t => { t with currentStep := step, progressText := text })) }

/-- Modelled from the spec: Task Store `setError(id, message)`
(SetAnalysisTaskError): terminal transition to `failed` with the message. -/
def setAnalysisTaskError (db : DBState) (taskID : String) (message : String) :
    DBState :=
  { db with tasks := (adjustA db.tasks taskID
      (fun t => { t with status := AnalysisStatus.failed, errorMessage := message })) }

/-- Modelled from the spec: User Store `resolveUser` (GetUserByUsername). -/
def getUserByUsername (db : DBState) (username : String) : Option UserModel :=
  lookupA db.users username

/-- Modelled from the spec: `latestContentFor` (GetUserTweetForAnalysis). -/
def getUserTweetForAnalysis (db : DBState) (username : String) : Option TweetModel :=
  lookupA db.tweets username

/-- Modelled from the spec: `hasFreshCachedResult` (HasValidCachedAnalysis);
the 24h freshness window is owned by the store, so the map holds exactly
the currently-fresh entries. -/
def hasValidCachedAnalysis (db : DBState) (userID : String) : Bool :=
  (lookupA db.cachedAnalyses userID).isSome

/-- Modelled from the spec: `getCachedResult` (GetCachedAnalysis). -/
def getCachedAnalysis (db : DBState) (userID : String) :
    Option SecondStepClaudeResponse :=
  lookupA db.cachedAnalyses userID

/-- Modelled from the spec: GetUserMessagesByUsername(username, limit). -/
def getUserMessagesByUsername (db : DBState) (username : String) (limit : Nat) :
    List TweetModel :=
  ((lookupA db.userMessages username).getD []).take limit

/- ---------- rendering and effects ---------- -/

/-- Structured view of formatAnalysisProgress: the progress-message template
rendered on each monitor tick (the HTML template text and elapsed-time
string are formatting, abstracted to the data they display). -/
inductive Rendering
  | failedView (username : String) (errorMessage : String) (taskID : String)
  | completedView (username : String) (taskID : String)
  | runningView (username : String) (step : AnalysisStep)
      (progressText : String) (taskID : String)
deriving DecidableEq, Repr

/-- formatAnalysisProgress: failed and completed tasks get their dedicated
final views; anything else gets the running view with the current step and
progress text. -/
def formatAnalysisProgress (task : AnalysisTaskModel) : Rendering :=
  match task.status with
  | AnalysisStatus.failed =>
      Rendering.failedView task.username task.errorMessage task.id
  | AnalysisStatus.completed =>
      Rendering.completedView task.username task.id
  | _ =>
      Rendering.runningView task.username task.currentStep task.progressText task.id

/-- The terminal views (failed / completed) of formatAnalysisProgress. -/
def isFinalRendering : Rendering → Bool
  | Rendering.failedView _ _ _ => true
  | Rendering.completedView _ _ => true
  | Rendering.runningView _ _ _ _ => false

/-- Structured content of the outbound Telegram texts this layer sends
(the string templates are formatting, abstracted to the data passed in). -/
inductive OutMessage
  | batchUsage
  | noValidUsernames
  | tooManyUsers (n : Nat)
  | batchConfirmation (valid invalid : List String)
  | batchSummary (started skipped total : Nat)
  | cachedBatchResult (username : String) (result : SecondStepClaudeResponse)
  | invalidHistoryFormat
  | noMessagesFound (username : String)
  | historyList (username : String) (tweets : List TweetModel)
deriving DecidableEq, Repr

/-- Observable side effects of the orchestration layer: Telegram sends and
edits, and goroutine launches of batch analysis tasks. -/
inductive Effect
  | sendMessage (chatID : Int) (msg : OutMessage)
  | editMessage (chatID : Int) (messageID : Int) (view : Rendering)
  | launchBatchTask (taskID : String) (chatID : Int)
deriving DecidableEq, Repr

/- ---------- dispatcher bodies ---------- -/

/-- Steps 939-950 / 1536-1547: resolve the username; on a miss fall back to
the placeholder ID and leave the store untouched; on a hit write the fetched
task record back with the resolved user ID. -/
def resolveUserID (db : DBState) (task : AnalysisTaskModel) : String × DBState :=
  match getUserByUsername db task.username with
  | none => ("unknown_" ++ task.username, db)
  | some user => (user.id, updateAnalysisTask db { task with userID := user.id })

/-- The placeholder work item built by processAnalysisTask when the user has
no stored tweet. -/
def manualPlaceholderMessage (username userID taskID : String) : NewMessage :=
  { tweetID := "manual_analysis_" ++ username
    replyTweetID := ""
    authorUserName := username
    authorName := username
    authorID := userID
    text := "Manual analysis request - no recent tweets found"
    parentTweetID := "placeholder_parent"
    parentTweetAuthor := "system"
    parentTweetText := "No parent tweet available - manual analysis"
    isManualAnalysis := true
    forceNotification := true
    taskID := taskID
    telegramChatID := 0 }

/-- The work item built by processAnalysisTask from a stored tweet. -/
def manualTweetMessage (username : String) (tweet : TweetModel) (taskID : String) :
    NewMessage :=
  { tweetID := tweet.id
    replyTweetID := tweet.inReplyToID
    authorUserName := username
    authorName := username
    authorID := tweet.userID
    text := tweet.text
    parentTweetID := "manual_parent"
    parentTweetAuthor := "system"
    parentTweetText := "Manual analysis - limited context available"
    isManualAnalysis := true
    forceNotification := true
    taskID := taskID
    telegramChatID := 0 }

/-- The placeholder work item built by processBatchAnalysisTask when the
user has no stored tweet. -/
def batchPlaceholderMessage (username userID taskID : String) (chatID : Int) :
    NewMessage :=
  { tweetID := "batch_analysis_" ++ username
    replyTweetID := ""
    authorUserName := username
    authorName := username
    authorID := userID
    text := "Batch analysis request - no recent tweets found"
    parentTweetID := "placeholder_parent"
    parentTweetAuthor := "system"
    parentTweetText := "No parent tweet available - batch analysis"
    isManualAnalysis := true
    forceNotification := true
    taskID := taskID
    telegramChatID := chatID }

/-- The work item built by processBatchAnalysisTask from a stored tweet. -/
def batchTweetMessage (username : String) (tweet : TweetModel) (taskID : String)
    (chatID : Int) : NewMessage :=
  { tweetID := tweet.id
    replyTweetID := tweet.inReplyToID
    authorUserName := username
    authorName := username
    authorID := tweet.userID
    text := tweet.text
    parentTweetID := "batch_parent"
    parentTweetAuthor := "system"
    parentTweetText := "Batch analysis - limited context available"
    isManualAnalysis := true
    forceNotification := true
    taskID := taskID
    telegramChatID := chatID }

/-- processAnalysisTask without its recover wrapper: fetch the task (a
failed read returns immediately), resolve the user (miss is non-fatal),
resolve context (miss synthesizes a placeholder), then a NON-BLOCKING
enqueue attempt: on success advance the progress text, on a full channel
mark the task failed.  Always returns (never waits on the channel). -/
def processAnalysisTaskBody (db0 : DBState) (ch : Channel) (taskID : String) :
    DBState × Channel :=
  match getAnalysisTask db0 taskID with
  | none => (db0, ch)
  | some task =>
    let db1 := updateAnalysisTaskProgress db0 taskID AnalysisStep.user_lookup
      "Looking up user information..."
    let r := resolveUserID db1 task
    let userID := r.1
    let db2 := r.2
    let db3 := updateAnalysisTaskProgress db2 taskID AnalysisStep.ticker_search
      "Searching for user's ticker mentions..."
    let newMessage :=
      match getUserTweetForAnalysis db3 task.username with
      | none => manualPlaceholderMessage task.username userID taskID
      | some tweet => manualTweetMessage task.username tweet taskID
    let db4 := updateAnalysisTaskProgress db3 taskID AnalysisStep.claude_analysis
      "Sending for FUD analysis..."
    let s := trySend ch newMessage
    if s.2 then
      (updateAnalysisTaskProgress db4 taskID AnalysisStep.claude_analysis
        "Processing with neural network...", s.1)
    else
      (setAnalysisTaskError db4 taskID
        "Analysis channel is full, please try again later", ch)

/-- Completion behaviour of one run of processBatchAnalysisTask: either it
ran to the end, or its final plain channel send is waiting on a full
channel (the store state at that moment and the pending item are kept). -/
inductive BatchRunResult
  | done (db : DBState) (ch : Channel)
  | blocked (db : DBState) (pending : NewMessage)
deriving DecidableEq, Repr

/-- The blocked outcome of a batch task run. -/
def isBlockedRun : BatchRunResult → Bool
  | BatchRunResult.blocked _ _ => true
  | BatchRunResult.done _ _ => false

/-- processBatchAnalysisTask without its recover wrapper: same steps as the
single-task body, but the work item carries the target chat and the final
enqueue is a PLAIN BLOCKING channel send. -/
def processBatchAnalysisTaskBody (db0 : DBState) (ch : Channel) (taskID : String)
    (targetChatID : Int) : BatchRunResult :=
  match getAnalysisTask db0 taskID with
  | none => BatchRunResult.done db0 ch
  | some task =>
    let db1 := updateAnalysisTaskProgress db0 taskID AnalysisStep.user_lookup
      "Looking up user information..."
    let r := resolveUserID db1 task
    let userID := r.1
    let db2 := r.2
    let db3 := updateAnalysisTaskProgress db2 taskID AnalysisStep.ticker_search
      "Searching for user's ticker mentions..."
    let newMessage :=
      match getUserTweetForAnalysis db3 task.username with
      | none => batchPlaceholderMessage task.username userID taskID targetChatID
      | some tweet => batchTweetMessage task.username tweet taskID targetChatID
    let db4 := updateAnalysisTaskProgress db3 taskID AnalysisStep.claude_analysis
      "Starting AI analysis..."
    match blockingSend ch newMessage with
    | some chDone => BatchRunResult.done db4 chDone
    | none => BatchRunResult.blocked db4 newMessage

/-- The body of a task runner either finishes normally or panics somewhere,
leaving the store and channel in some intermediate state together with the
rendered panic value. -/
inductive TaskOutcome
  | ok (db : DBState) (ch : Channel)
  | panicked (db : DBState) (ch : Channel) (panicMessage : String)
deriving DecidableEq, Repr

/-- The deferred recover at the top of processAnalysisTask and
processBatchAnalysisTask: a panic is caught, the task is set to failed with
the rendered panic value, and the runner returns normally (the function is
total: nothing propagates). -/
def recoverWrapper (taskID : String) (outcome : TaskOutcome) : DBState × Channel :=
  match outcome with
  | TaskOutcome.ok db ch => (db, ch)
  | TaskOutcome.panicked db ch msg =>
      (setAnalysisTaskError db taskID ("Internal error: " ++ msg), ch)

/- ---------- progress monitor ---------- -/

/-- The message edit issued by one monitor tick that observed the task. -/
def progressEdit (task : AnalysisTaskModel) : Effect :=
  Effect.editMessage task.telegramChatID task.messageID (formatAnalysisProgress task)

/-- Terminal task statuses (completed or failed). -/
def isTerminalStatus : AnalysisStatus → Bool
  | AnalysisStatus.completed => true
  | AnalysisStatus.failed => true
  | _ => false

/-- How one monitor run ended. -/
inductive MonitorStop
  | taskMissing
  | terminalSeen
  | traceEnded
deriving DecidableEq, Repr

/-- monitorAnalysisProgress over an observation trace: each list element is
the store read of one 1-second tick (none = the read failed).  A failed
read stops the loop with no edit; an observed task is always rendered and
the message edited; a terminal status stops the loop right after its edit.
An exhausted trace means observation was truncated while the loop was
still running. -/
def monitorRun : List (Option AnalysisTaskModel) → List Effect × MonitorStop
  | [] => ([], MonitorStop.traceEnded)
  | none :: _ => ([], MonitorStop.taskMissing)
  | some task :: rest =>
    if isTerminalStatus task.status then
      ([progressEdit task], MonitorStop.terminalSeen)
    else
      let r := monitorRun rest
      (progressEdit task :: r.1, r.2)

/- ---------- batch orchestrator ---------- -/

/-- Classify the comma-separated entries: trim, strip a leading at-sign,
drop empties, and divide the rest into valid and invalid (too long or
containing a space), both in input order. -/
def classifyUsernames (entries : List String) : List String × List String :=
  entries.foldl
    (fun (acc : List String × List String) raw =>
      let u := stripLeadingAt (trimSpace raw)
      if u = "" then acc
      else if 50 < strLen u ∨ strHasChar u ' ' = true then (acc.1, acc.2 ++ [u])
      else (acc.1 ++ [u], acc.2))
    ([], [])

/-- Running state of the batch dispatch loop: store, emitted effects,
admitted / skipped counters and the index feeding the task-ID generator. -/
structure BatchLoopState where
  db : DBState
  effects : List Effect
  analysisCount : Nat
  skippedCount : Nat
  nextIdx : Nat
deriving Repr

/-- The admission arm of the batch loop: create the pending task record
(with the user ID when the user resolved) and launch its background
analysis goroutine. -/
def admitBatchEntry (genID : Nat → String) (chatID : Int) (s : BatchLoopState)
    (username : String) (user : Option UserModel) : BatchLoopState :=
  let taskID := genID s.nextIdx
  let task : AnalysisTaskModel :=
    { id := taskID
      username := username
      userID := match user with | some u => u.id | none => ""
      status := AnalysisStatus.pending
      currentStep := AnalysisStep.init
      progressText := "Queued for batch analysis..."
      errorMessage := ""
      telegramChatID := chatID
      messageID := 0 }
  { s with
    db := createAnalysisTask s.db task
    nextIdx := s.nextIdx + 1
    analysisCount := s.analysisCount + 1
    effects := s.effects ++ [Effect.launchBatchTask taskID chatID] }

/-- One iteration of the handleBatchAnalyzeCommand loop: a resolved user
with a fresh cached analysis is skipped, sending the cached result
directly to the requesting chat; everything else is admitted. -/
def processBatchEntry (genID : Nat → String) (chatID : Int) (s : BatchLoopState)
    (username : String) : BatchLoopState :=
  match getUserByUsername s.db username with
  | some user =>
    if hasValidCachedAnalysis s.db user.id then
      match getCachedAnalysis s.db user.id with
      | some cachedResult =>
        { s with
          skippedCount := s.skippedCount + 1
          effects := s.effects ++
            [Effect.sendMessage chatID (OutMessage.cachedBatchResult username cachedResult)] }
      | none => { s with skippedCount := s.skippedCount + 1 }
    else
      admitBatchEntry genID chatID s username (some user)
  | none => admitBatchEntry genID chatID s username none

/-- Aggregate result of one batch dispatch. -/
structure BatchDispatchResult where
  db : DBState
  effects : List Effect
  analysisCount : Nat
  skippedCount : Nat
deriving Repr

/-- handleBatchAnalyzeCommand: join the arguments, split on commas,
validate the entries, reject an empty or oversized (more than 20) valid
list outright, otherwise confirm, run the admission/skip loop over every
valid occurrence in order, and send the summary (the 150ms inter-launch
sleep is timing and is not modelled). -/
def handleBatchAnalyzeCommand (db : DBState) (genID : Nat → String)
    (chatID : Int) (args : List String) : BatchDispatchResult :=
  if args = [] ∨ trimSpace (args.headD "") = "" then
    { db := db
      effects := [Effect.sendMessage chatID OutMessage.batchUsage]
      analysisCount := 0
      skippedCount := 0 }
  else
    let usernames := splitString ',' (joinWithSpace args)
    let cls := classifyUsernames usernames
    let validUsernames := cls.1
    let invalidUsernames := cls.2
    if validUsernames = [] then
      { db := db
        effects := [Effect.sendMessage chatID OutMessage.noValidUsernames]
        analysisCount := 0
        skippedCount := 0 }
    else if 20 < validUsernames.length then
      { db := db
        effects := [Effect.sendMessage chatID (OutMessage.tooManyUsers validUsernames.length)]
        analysisCount := 0
        skippedCount := 0 }
    else
      let s0 : BatchLoopState :=
        { db := db
          effects := [Effect.sendMessage chatID
            (OutMessage.batchConfirmation validUsernames invalidUsernames)]
          analysisCount := 0
          skippedCount := 0
          nextIdx := 0 }
      let s := validUsernames.foldl (processBatchEntry genID chatID) s0
      { db := s.db
        effects := s.effects ++ [Effect.sendMessage chatID
          (OutMessage.batchSummary s.analysisCount s.skippedCount validUsernames.length)]
        analysisCount := s.analysisCount
        skippedCount := s.skippedCount }

/- ---------- history command and text utilities ---------- -/

/-- handleHistoryCommand: split the raw command on underscores, demand
exactly two parts, then fetch and render the latest 20 messages for the
extracted username. -/
def handleHistoryCommand (db : DBState) (chatID : Int) (command : String) :
    List Effect :=
  let parts := splitString '_' command
  if parts.length ≠ 2 then
    [Effect.sendMessage chatID OutMessage.invalidHistoryFormat]
  else
    let username := parts.getD 1 ""
    let tweets := getUserMessagesByUsername db username 20
    if tweets = [] then
      [Effect.sendMessage chatID (OutMessage.noMessagesFound username)]
    else
      [Effect.sendMessage chatID (OutMessage.historyList username tweets)]

/-- truncateText over the byte sequence of the text (bytes modelled as
characters), with the Go int bound kept as an integer: a text within the
bound is returned unchanged; otherwise the Go slice text[:maxLength-3] is
taken and "..." appended.  `none` models the runtime panic of a slice
with an out-of-range index (maxLength - 3 negative). -/
def truncateText (text : List Char) (maxLength : Int) : Option (List Char) :=
  if (text.length : Int) ≤ maxLength then
    some text
  else if 0 ≤ maxLength - 3 ∧ maxLength - 3 ≤ (text.length : Int) then
    some (text.take (maxLength - 3).toNat ++ ['.', '.', '.'])
  else
    none
/-- The /help text (handleHelpCommand), verbatim from the source. -/
def helpMessage : String :=
  "🤖 <b>FUD Detection Bot - Available Commands</b>

🔍 <b>Search & Analysis Commands:</b>
• <code>/search [query]</code> - Search users by username/name
  Example: /search john or /search (shows top 10 active users)

• <code>/analyze &lt;username&gt;</code> - Run manual FUD analysis
  Example: /analyze suspicious_user

📊 <b>User Investigation Commands:</b>
• <code>/history_&lt;username&gt;</code> - View recent messages (20 latest)
  Example: /history_john_doe

• <code>/ticker_history_&lt;username&gt;</code> - View ticker-related messages
  Example: /ticker_history_john_doe

• <code>/export_&lt;username&gt;</code> - Export full message history as file
  Example: /export_john_doe

• <code>/detail_&lt;id&gt;</code> - View detailed FUD analysis
  (ID provided in alert notifications)

📁 <b>Data Management Commands:</b>
• <code>/import &lt;csv_file&gt;</code> - Import tweets from CSV file
  Example: /import community_tweets.csv

🔔 <b>Notification Management:</b>
• <code>/notify</code> - Show notification users list
• <code>/notify &lt;username&gt;</code> - Add user to notification list
  Example: /notify suspicious_user

📊 <b>Analysis Management:</b>
• <code>/fudlist</code> - Show all detected FUD users
• <code>/tasks</code> - Show running analysis tasks
• <code>/batch_analyze &lt;user1,user2,user3&gt;</code> - Analyze multiple users
• <code>/top20_analyze</code> - Analyze top 20 most active users (admin only)

❓ <b>Help Commands:</b>
• <code>/help</code> or <code>/start</code> - Show this help message

💡 <b>Usage Tips:</b>
• Commands with underscore (_) need exact format
• Commands with space accept parameters
• All commands are case-sensitive
• Bot responds to FUD alerts automatically

🔔 <b>Alert Types:</b>
• 🚨🔥 Critical - Immediate action required
• 🚨 High - Monitor closely  
• ⚠️ Medium - Standard monitoring
• ℹ️ Low - Log and watch

👤 <b>Your Chat ID:</b> <code>%d</code>"

/-- helpMessage up to the history example it advertises. -/
def helpBeforeHistoryExample : String :=
  "🤖 <b>FUD Detection Bot - Available Commands</b>

🔍 <b>Search & Analysis Commands:</b>
• <code>/search [query]</code> - Search users by username/name
  Example: /search john or /search (shows top 10 active users)

• <code>/analyze &lt;username&gt;</code> - Run manual FUD analysis
  Example: /analyze suspicious_user

📊 <b>User Investigation Commands:</b>
• <code>/history_&lt;username&gt;</code> - View recent messages (20 latest)
  Example: "

/-- helpMessage after the history example it advertises. -/
def helpAfterHistoryExample : String :=
  "

• <code>/ticker_history_&lt;username&gt;</code> - View ticker-related messages
  Example: /ticker_history_john_doe

• <code>/export_&lt;username&gt;</code> - Export full message history as file
  Example: /export_john_doe

• <code>/detail_&lt;id&gt;</code> - View detailed FUD analysis
  (ID provided in alert notifications)

📁 <b>Data Management Commands:</b>
• <code>/import &lt;csv_file&gt;</code> - Import tweets from CSV file
  Example: /import community_tweets.csv

🔔 <b>Notification Management:</b>
• <code>/notify</code> - Show notification users list
• <code>/notify &lt;username&gt;</code> - Add user to notification list
  Example: /notify suspicious_user

📊 <b>Analysis Management:</b>
• <code>/fudlist</code> - Show all detected FUD users
• <code>/tasks</code> - Show running analysis tasks
• <code>/batch_analyze &lt;user1,user2,user3&gt;</code> - Analyze multiple users
• <code>/top20_analyze</code> - Analyze top 20 most active users (admin only)

❓ <b>Help Commands:</b>
• <code>/help</code> or <code>/start</code> - Show this help message

💡 <b>Usage Tips:</b>
• Commands with underscore (_) need exact format
• Commands with space accept parameters
• All commands are case-sensitive
• Bot responds to FUD alerts automatically

🔔 <b>Alert Types:</b>
• 🚨🔥 Critical - Immediate action required
• 🚨 High - Monitor closely  
• ⚠️ Medium - Standard monitoring
• ℹ️ Low - Log and watch

👤 <b>Your Chat ID:</b> <code>%d</code>"

/- ---------- concrete fixtures used by counterexamples and witnesses ---------- -/

/-- A deterministic stand-in for generateNotificationID (8 random hex bytes
in the source; only freshness matters to this layer). -/
def seqTaskID (n : Nat) : String :=
  "task" ++ toString n

/-- A stored user whose analysis is freshly cached. -/
def aliceUser : UserModel :=
  { id := "u1", username := "alice", name := "alice" }

/-- The fresh cached analysis result for aliceUser. -/
def aliceCached : SecondStepClaudeResponse :=
  { isFUDUser := true, fudType := "aggressive", userRiskLevel := "high",
    userSummary := "known account" }

/-- Store with alice resolved and cached, nothing else. -/
def batchDb : DBState :=
  { tasks := []
    users := [("alice", aliceUser)]
    tweets := []
    cachedAnalyses := [("u1", aliceCached)]
    userMessages := [] }

/-- A pending task for a username that resolves to no user and no tweet. -/
def carolTask : AnalysisTaskModel :=
  { id := "t1", username := "carol", userID := "",
    status := AnalysisStatus.pending, currentStep := AnalysisStep.init,
    progressText := "Queued for batch analysis...", errorMessage := "",
    telegramChatID := 7, messageID := 0 }

/-- Store holding only carolTask. -/
def taskOnlyDb : DBState :=
  { tasks := [("t1", carolTask)]
    users := []
    tweets := []
    cachedAnalyses := []
    userMessages := [] }

/-- A channel with no free slot: any further send must wait. -/
def fullCh : Channel :=
  { capacity := 0, buffer := [] }

/-- A channel with room for more work items. -/
def roomCh : Channel :=
  { capacity := 4, buffer := [] }

/-- A non-terminal (running) task as the monitor may observe it. -/
def runningTask : AnalysisTaskModel :=
  { id := "t2", username := "dave", userID := "u2",
    status := AnalysisStatus.running, currentStep := AnalysisStep.claude_analysis,
    progressText := "Processing with neural network...", errorMessage := "",
    telegramChatID := 9, messageID := 5 }

/-- The same task once the worker marked it completed. -/
def completedTask : AnalysisTaskModel :=
  { runningTask with status := AnalysisStatus.completed }

/-- An empty store. -/
def emptyDb : DBState :=
  { tasks := [], users := [], tweets := [], cachedAnalyses := [], userMessages := [] }

/- ---------- helper lemmas about the store model ---------- -/

theorem lookupA_adjustA {α : Type} (l : List (String × α)) (k : String) (f : α → α) :
    lookupA (adjustA l k f) k = (lookupA l k).map f := by
  induction l with
  | nil => rfl
  | cons p rest ih =>
    obtain ⟨k', v⟩ := p
    by_cases h : k' = k
    · subst h
      simp [adjustA, lookupA]
    · simp [adjustA, lookupA, h, ih]

@[simp] theorem getAnalysisTask_updateProgress (db : DBState) (taskID : String)
    (step : AnalysisStep) (text : String) :
    getAnalysisTask (updateAnalysisTaskProgress db taskID step text) taskID
      = (getAnalysisTask db taskID).map
          (fun t => { t with currentStep := step, progressText := text }) := by
  show lookupA (adjustA db.tasks taskID
      (fun t => { t with currentStep := step, progressText := text })) taskID
    = (lookupA db.tasks taskID).map
      (fun t => { t with currentStep := step, progressText := text })
  exact lookupA_adjustA db.tasks taskID _

@[simp] theorem getAnalysisTask_setError (db : DBState) (taskID : String)
    (message : String) :
    getAnalysisTask (setAnalysisTaskError db taskID message) taskID
      = (getAnalysisTask db taskID).map
          (fun t => { t with status := AnalysisStatus.failed, errorMessage := message }) := by
  show lookupA (adjustA db.tasks taskID
      (fun t => { t with status := AnalysisStatus.failed, errorMessage := message })) taskID
    = (lookupA db.tasks taskID).map
      (fun t => { t with status := AnalysisStatus.failed, errorMessage := message })
  exact lookupA_adjustA db.tasks taskID _

@[simp] theorem getAnalysisTask_updateTask (db : DBState) (task : AnalysisTaskModel) :
    getAnalysisTask (updateAnalysisTask db task) task.id
      = (getAnalysisTask db task.id).map (fun _ => task) := by
  show lookupA (adjustA db.tasks task.id (fun _ => task)) task.id
    = (lookupA db.tasks task.id).map (fun _ => task)
  exact lookupA_adjustA db.tasks task.id _

@[simp] theorem getUserByUsername_updateProgress (db : DBState) (taskID : String)
    (step : AnalysisStep) (text : String) (u : String) :
    getUserByUsername (updateAnalysisTaskProgress db taskID step text) u
      = getUserByUsername db u := rfl

@[simp] theorem getUserByUsername_updateTask (db : DBState)
    (task : AnalysisTaskModel) (u : String) :
    getUserByUsername (updateAnalysisTask db task) u = getUserByUsername db u := rfl

@[simp] theorem getUserTweet_updateProgress (db : DBState) (taskID : String)
    (step : AnalysisStep) (text : String) (u : String) :
    getUserTweetForAnalysis (updateAnalysisTaskProgress db taskID step text) u
      = getUserTweetForAnalysis db u := rfl

@[simp] theorem getUserTweet_updateTask (db : DBState) (task : AnalysisTaskModel)
    (u : String) :
    getUserTweetForAnalysis (updateAnalysisTask db task) u
      = getUserTweetForAnalysis db u := rfl

theorem trySend_full (ch : Channel) (m : NewMessage) (h : channelFull ch = true) :
    trySend ch m = (ch, false) := by
  have hn : ¬ ch.buffer.length < ch.capacity := by
    simp [channelFull] at h; omega
  simp [trySend, hn]

theorem trySend_notFull (ch : Channel) (m : NewMessage) (h : channelFull ch = false) :
    trySend ch m = ({ ch with buffer := ch.buffer ++ [m] }, true) := by
  have hn : ch.buffer.length < ch.capacity := by
    simp [channelFull] at h; omega
  simp [trySend, hn]

theorem blockingSend_full (ch : Channel) (m : NewMessage) (h : channelFull ch = true) :
    blockingSend ch m = none := by
  have hn : ¬ ch.buffer.length < ch.capacity := by
    simp [channelFull] at h; omega
  simp [blockingSend, hn]

/- ---------- claim theorems ---------- -/

/-- C10: truncateText returns the text unchanged when it fits the bound;
for a longer text and a bound of at least 3 it returns exactly maxLength
bytes ending in "..."; and with a bound under 3 the truncating slice
text[:maxLength-3] is out of range (the modelled runtime panic), which is
why the precondition is required. -/
theorem truncateText_bound_spec :
    (∀ (text : List Char) (maxLength : Int), 3 ≤ maxLength →
      (((text.length : Int) ≤ maxLength → truncateText text maxLength = some text)
        ∧ (maxLength < (text.length : Int) →
            ∃ s, truncateText text maxLength = some (s ++ ['.', '.', '.'])
              ∧ (s ++ ['.', '.', '.']).length = maxLength.toNat)))
    ∧ truncateText ['a', 'b', 'c', 'd'] 2 = none := by
  constructor
  · intro text maxLength h3
    constructor
    · intro hle
      simp [truncateText, hle]
    · intro hgt
      have hnle : ¬ (text.length : Int) ≤ maxLength := by omega
      have hg1 : (0 : Int) ≤ maxLength - 3 := by omega
      have hg2 : maxLength - 3 ≤ (text.length : Int) := by omega
      refine ⟨text.take (maxLength - 3).toNat, ?_, ?_⟩
      · simp [truncateText, hnle, hg1, hg2]
      · simp only [List.length_append, List.length_take]
        simp
        omega
  · decide

/-- C10 witness: an 8-character text truncated at bound 5 becomes exactly
5 characters ending in the ellipsis. -/
theorem truncateText_bound_spec_witness :
    ∃ s, truncateText ['a', 'b', 'c', 'd', 'e', 'f', 'g', 'h'] 5
        = some (s ++ ['.', '.', '.'])
      ∧ (s ++ ['.', '.', '.']).length = (5 : Int).toNat :=
  (truncateText_bound_spec.1 ['a', 'b', 'c', 'd', 'e', 'f', 'g', 'h'] 5 (by decide)).2
    (by decide)

set_option maxRecDepth 40000

/-- C9: the /history command splits on underscores and demands exactly two
parts, so a username that itself contains an underscore is rejected with
the invalid-format reply no matter what the store holds (no lookup can
influence the outcome) — while the help text advertises /history_john_doe
as its worked example. -/
theorem history_underscore_username_rejected :
    (∀ (db : DBState) (chatID : Int),
      handleHistoryCommand db chatID "/history_john_doe"
        = [Effect.sendMessage chatID OutMessage.invalidHistoryFormat])
    ∧ helpMessage
        = helpBeforeHistoryExample ++ "/history_john_doe" ++ helpAfterHistoryExample := by
  constructor
  · intro db chatID
    rfl
  · rfl

/-- C7: the deferred recover of the background task runners converts a
panic anywhere in the body into a terminal failed task whose error message
carries the rendered panic value as a suffix, returning normally with the
channel untouched. -/
theorem panic_recovered_to_failed_state :
    ∀ (db : DBState) (ch : Channel) (taskID msg : String)
      (task : AnalysisTaskModel),
      getAnalysisTask db taskID = some task →
      ∃ t',
        getAnalysisTask (recoverWrapper taskID (TaskOutcome.panicked db ch msg)).1 taskID
            = some t'
        ∧ t'.status = AnalysisStatus.failed
        ∧ t'.errorMessage = "Internal error: " ++ msg
        ∧ (∃ pre, t'.errorMessage = pre ++ msg)
        ∧ (recoverWrapper taskID (TaskOutcome.panicked db ch msg)).2 = ch := by
  intro db ch taskID msg task h
  have hrec :
      getAnalysisTask (recoverWrapper taskID (TaskOutcome.panicked db ch msg)).1 taskID
        = some { task with status := AnalysisStatus.failed, errorMessage := "Internal error: " ++ msg } := by
    show getAnalysisTask (setAnalysisTaskError db taskID ("Internal error: " ++ msg)) taskID = _
    rw [getAnalysisTask_setError, h]
    rfl
  exact ⟨_, hrec, rfl, rfl, ⟨"Internal error: ", rfl⟩, rfl⟩

/-- C7 witness: a panic with value "boom" in carolTask's runner. -/
theorem panic_recovered_to_failed_state_witness :
    ∃ t',
      getAnalysisTask (recoverWrapper "t1" (TaskOutcome.panicked taskOnlyDb roomCh "boom")).1 "t1"
          = some t'
      ∧ t'.status = AnalysisStatus.failed
      ∧ t'.errorMessage = "Internal error: " ++ "boom"
      ∧ (∃ pre, t'.errorMessage = pre ++ "boom")
      ∧ (recoverWrapper "t1" (TaskOutcome.panicked taskOnlyDb roomCh "boom")).2 = roomCh :=
  panic_recovered_to_failed_state taskOnlyDb roomCh "t1" "boom" carolTask (by rfl)

/-- C6 counterexample: the monitor loop also exits when the task read
fails, without having observed any terminal status, so observing a
terminal status is not the sole exit condition of the polling loop. -/
theorem monitor_exits_on_missing_task :
    monitorRun [none] = ([], MonitorStop.taskMissing)
    ∧ MonitorStop.taskMissing ≠ MonitorStop.terminalSeen := by
  exact ⟨rfl, by decide⟩

/-- C6 amended: once a read observes a terminal status the monitor renders
that task's view — a final (failed/completed) rendering — edits the message
and stops within that same tick, issuing nothing for any later reads; the
loop's only other exit is a failed task read, which stops it without an
edit. -/
theorem monitor_terminal_stop_behavior :
    (∀ (pre : List AnalysisTaskModel) (t : AnalysisTaskModel)
        (suf : List (Option AnalysisTaskModel)),
      (∀ u ∈ pre, isTerminalStatus u.status = false) →
      isTerminalStatus t.status = true →
      monitorRun (pre.map some ++ some t :: suf)
        = (pre.map progressEdit ++ [progressEdit t], MonitorStop.terminalSeen))
    ∧ (∀ t : AnalysisTaskModel, isTerminalStatus t.status = true →
        isFinalRendering (formatAnalysisProgress t) = true)
    ∧ (∀ rest : List (Option AnalysisTaskModel),
        monitorRun (none :: rest) = ([], MonitorStop.taskMissing)) := by
  refine ⟨?_, ?_, ?_⟩
  · intro pre t suf hpre ht
    induction pre with
    | nil => simp [monitorRun, ht]
    | cons u rest ih =>
      have hu : isTerminalStatus u.status = false := hpre u (by simp)
      have hrest : ∀ v ∈ rest, isTerminalStatus v.status = false := by
        intro v hv
        exact hpre v (by simp [hv])
      simp [monitorRun, hu, ih hrest]
  · intro t ht
    cases h : t.status <;>
      simp_all [isTerminalStatus, formatAnalysisProgress, isFinalRendering]
  · intro rest
    rfl

/-- C6 witness: a running tick followed by a completed tick and a further
(ignored) read: the monitor edits twice and stops at the completed tick. -/
theorem monitor_terminal_stop_behavior_witness :
    monitorRun ([runningTask].map some ++ some completedTask :: [some runningTask])
      = ([runningTask].map progressEdit ++ [progressEdit completedTask],
          MonitorStop.terminalSeen) :=
  monitor_terminal_stop_behavior.1 [runningTask] completedTask [some runningTask]
    (by decide) (by decide)

/-- C4: in the batch dispatch loop, a username that resolves to a user with
a fresh cached analysis is not admitted: the store is left untouched (no
task record), nothing is launched toward the work queue, and exactly one
notification built from the cached result goes to the originating chat. -/
theorem cached_user_skips_admission_sends_one_notification :
    ∀ (genID : Nat → String) (chatID : Int) (s : BatchLoopState)
      (username : String) (user : UserModel) (cachedResult : SecondStepClaudeResponse),
      getUserByUsername s.db username = some user →
      getCachedAnalysis s.db user.id = some cachedResult →
      processBatchEntry genID chatID s username
        = { s with
            skippedCount := s.skippedCount + 1
            effects := s.effects ++
              [Effect.sendMessage chatID (OutMessage.cachedBatchResult username cachedResult)] } := by
  intro genID chatID s username user cachedResult hu hc
  have hc' : lookupA s.db.cachedAnalyses user.id = some cachedResult := hc
  simp [processBatchEntry, hu, hasValidCachedAnalysis, getCachedAnalysis, hc']

/-- Fixed starting state of the batch loop over batchDb. -/
def batchLoopS0 : BatchLoopState :=
  { db := batchDb, effects := [], analysisCount := 0, skippedCount := 0, nextIdx := 0 }

/-- C4 witness: processing "alice" (resolved, cached) in batchLoopS0. -/
theorem cached_user_skips_admission_sends_one_notification_witness :
    processBatchEntry seqTaskID 42 batchLoopS0 "alice"
      = { batchLoopS0 with
          skippedCount := batchLoopS0.skippedCount + 1
          effects := batchLoopS0.effects ++
            [Effect.sendMessage 42 (OutMessage.cachedBatchResult "alice" aliceCached)] } :=
  cached_user_skips_admission_sends_one_notification seqTaskID 42 batchLoopS0 "alice"
    aliceUser aliceCached (by rfl) (by rfl)

/-- C5: a batch whose valid username list exceeds 20 entries is rejected
with the too-many reply before anything is admitted: the store is
unchanged, no launch or other effect happens, and both counters are 0. -/
theorem oversize_batch_rejected_without_admission :
    ∀ (db : DBState) (genID : Nat → String) (chatID : Int) (args : List String),
      ¬(args = [] ∨ trimSpace (args.headD "") = "") →
      20 < (classifyUsernames (splitString ',' (joinWithSpace args))).1.length →
      handleBatchAnalyzeCommand db genID chatID args
        = { db := db
            effects := [Effect.sendMessage chatID
              (OutMessage.tooManyUsers
                (classifyUsernames (splitString ',' (joinWithSpace args))).1.length)]
            analysisCount := 0
            skippedCount := 0 } := by
  intro db genID chatID args hargs hcount
  have hne : ¬ (classifyUsernames (splitString ',' (joinWithSpace args))).1 = [] := by
    intro h
    rw [h] at hcount
    simp at hcount
  simp [handleBatchAnalyzeCommand, hargs, hne, hcount]
  constructor
  · intro h
    exact hargs (Or.inl h)
  · intro h
    exact hargs (Or.inr (by simpa using h))

/-- A batch request naming 21 distinct users. -/
def args21 : List String :=
  ["a1,a2,a3,a4,a5,a6,a7,a8,a9,a10,a11,a12,a13,a14,a15,a16,a17,a18,a19,a20,a21"]

/-- C5 witness: the 21-user batch is rejected with no admission. -/
theorem oversize_batch_rejected_without_admission_witness :
    handleBatchAnalyzeCommand emptyDb seqTaskID 42 args21
      = { db := emptyDb
          effects := [Effect.sendMessage 42
            (OutMessage.tooManyUsers
              (classifyUsernames (splitString ',' (joinWithSpace args21))).1.length)]
          analysisCount := 0
          skippedCount := 0 } :=
  oversize_batch_rejected_without_admission emptyDb seqTaskID 42 args21
    (by decide) (by decide)

/-- C2 counterexample: dispatching ["alice","alice","bob"] with alice's
analysis freshly cached processes the duplicate alice entry twice: the
skip counter ends at 2, not the 1 that the claimed de-duplication (each
distinct username exactly once) would give. -/
theorem batch_dispatch_no_dedup_counterexample :
    (handleBatchAnalyzeCommand batchDb seqTaskID 42 ["alice,alice,bob"]).analysisCount = 1
    ∧ (handleBatchAnalyzeCommand batchDb seqTaskID 42 ["alice,alice,bob"]).skippedCount = 2
    ∧ ¬ (handleBatchAnalyzeCommand batchDb seqTaskID 42 ["alice,alice,bob"]).skippedCount = 1 := by
  exact ⟨rfl, rfl, by decide⟩

theorem processBatchEntry_count (genID : Nat → String) (chatID : Int)
    (s : BatchLoopState) (username : String) :
    (processBatchEntry genID chatID s username).analysisCount
      + (processBatchEntry genID chatID s username).skippedCount
      = s.analysisCount + s.skippedCount + 1 := by
  unfold processBatchEntry admitBatchEntry
  cases hu : getUserByUsername s.db username with
  | none =>
    simp
    omega
  | some user =>
    by_cases h : hasValidCachedAnalysis s.db user.id = true
    · simp only [h, if_true]
      cases hc : getCachedAnalysis s.db user.id <;> simp <;> omega
    · simp only [Bool.not_eq_true] at h
      simp [h]
      omega

theorem foldl_batch_count (genID : Nat → String) (chatID : Int)
    (l : List String) :
    ∀ (s : BatchLoopState),
      (l.foldl (processBatchEntry genID chatID) s).analysisCount
        + (l.foldl (processBatchEntry genID chatID) s).skippedCount
        = s.analysisCount + s.skippedCount + l.length := by
  induction l with
  | nil => intro s; simp
  | cons u rest ih =>
    intro s
    simp only [List.foldl_cons, List.length_cons]
    rw [ih (processBatchEntry genID chatID s u)]
    have := processBatchEntry_count genID chatID s u
    omega

/-- C2 amended: batch dispatch performs no de-duplication: every valid
occurrence of a username — duplicates included — is processed exactly once
(admitted or skipped), so the two counters sum to the number of valid
occurrences; in the claimed scenario ["alice","alice","bob"] with alice
cached this yields admitted = 1 and skipped = 2, the duplicate alice entry
being processed a second time rather than collapsed. -/
theorem batch_dispatch_per_occurrence_count :
    ∀ (db : DBState) (genID : Nat → String) (chatID : Int) (args : List String),
      ¬(args = [] ∨ trimSpace (args.headD "") = "") →
      (classifyUsernames (splitString ',' (joinWithSpace args))).1 ≠ [] →
      (classifyUsernames (splitString ',' (joinWithSpace args))).1.length ≤ 20 →
      (handleBatchAnalyzeCommand db genID chatID args).analysisCount
        + (handleBatchAnalyzeCommand db genID chatID args).skippedCount
        = (classifyUsernames (splitString ',' (joinWithSpace args))).1.length := by
  intro db genID chatID args hargs hne hlen
  have hnlt : ¬ 20 < (classifyUsernames (splitString ',' (joinWithSpace args))).1.length := by
    omega
  simp only [handleBatchAnalyzeCommand, if_neg hargs, if_neg hne, if_neg hnlt]
  have := foldl_batch_count genID chatID
    (classifyUsernames (splitString ',' (joinWithSpace args))).1
    { db := db
      effects := [Effect.sendMessage chatID
        (OutMessage.batchConfirmation
          (classifyUsernames (splitString ',' (joinWithSpace args))).1
          (classifyUsernames (splitString ',' (joinWithSpace args))).2)]
      analysisCount := 0
      skippedCount := 0
      nextIdx := 0 }
  simpa using this

/-- C2 witness: the amended per-occurrence law on the scenario input:
1 admitted plus 2 skipped equals the 3 valid occurrences. -/
theorem batch_dispatch_per_occurrence_count_witness :
    (handleBatchAnalyzeCommand batchDb seqTaskID 42 ["alice,alice,bob"]).analysisCount
      + (handleBatchAnalyzeCommand batchDb seqTaskID 42 ["alice,alice,bob"]).skippedCount
      = (classifyUsernames (splitString ',' (joinWithSpace ["alice,alice,bob"]))).1.length :=
  batch_dispatch_per_occurrence_count batchDb seqTaskID 42 ["alice,alice,bob"]
    (by decide) (by decide) (by decide)

/-- C1 counterexample: an admitted batch task run against a full analysis
channel blocks in its final plain channel send — the enqueue waits for the
worker — refuting the claim that every admission's enqueue is a
non-blocking attempt that never waits. -/
theorem batch_enqueue_blocks_on_full_queue :
    isBlockedRun (processBatchAnalysisTaskBody taskOnlyDb fullCh "t1" 7) = true := by
  rfl

/-- C1 amended: only the single /analyze admission's enqueue is a
non-blocking attempt: it always completes, leaving a full queue untouched;
the per-username batch admission instead performs a plain blocking channel
send, which waits whenever the queue is full. -/
theorem enqueue_admission_blocking_contrast :
    (∀ (db : DBState) (ch : Channel) (taskID : String),
      channelFull ch = true →
      (processAnalysisTaskBody db ch taskID).2 = ch)
    ∧ (∀ (db : DBState) (ch : Channel) (taskID : String) (chatID : Int)
        (task : AnalysisTaskModel),
      getAnalysisTask db taskID = some task →
      channelFull ch = true →
      isBlockedRun (processBatchAnalysisTaskBody db ch taskID chatID) = true) := by
  constructor
  · intro db ch taskID hfull
    unfold processAnalysisTaskBody
    cases htask : getAnalysisTask db taskID with
    | none => rfl
    | some task =>
      simp only [trySend_full _ _ hfull]
      simp
  · intro db ch taskID chatID task htask hfull
    unfold processBatchAnalysisTaskBody
    rw [htask]
    simp only [blockingSend_full _ _ hfull]
    rfl

/-- C1 witness: against the concrete full channel, the single-task body
completes with the channel untouched while the batch body blocks. -/
theorem enqueue_admission_blocking_contrast_witness :
    (processAnalysisTaskBody taskOnlyDb fullCh "t1").2 = fullCh
    ∧ isBlockedRun (processBatchAnalysisTaskBody taskOnlyDb fullCh "t1" 7) = true :=
  ⟨enqueue_admission_blocking_contrast.1 taskOnlyDb fullCh "t1" (by rfl),
    enqueue_admission_blocking_contrast.2 taskOnlyDb fullCh "t1" 7 carolTask (by rfl) (by rfl)⟩

theorem lookupA_adjustA_other {α : Type} (l : List (String × α)) (k k' : String)
    (f : α → α) (h : ¬ k' = k) :
    lookupA (adjustA l k' f) k = lookupA l k := by
  induction l with
  | nil => rfl
  | cons p rest ih =>
    obtain ⟨k0, v⟩ := p
    by_cases h0 : k0 = k'
    · subst h0
      simp [adjustA, lookupA, h, ih]
    · simp [adjustA, lookupA, h0, ih]

theorem getAnalysisTask_updateTask_at (db : DBState) (t : AnalysisTaskModel)
    (k : String) (h : t.id = k) :
    getAnalysisTask (updateAnalysisTask db t) k
      = (getAnalysisTask db k).map (fun _ => t) := by
  subst h
  exact getAnalysisTask_updateTask db t

theorem getAnalysisTask_updateTask_other (db : DBState) (t : AnalysisTaskModel)
    (k : String) (h : ¬ t.id = k) :
    getAnalysisTask (updateAnalysisTask db t) k = getAnalysisTask db k := by
  show lookupA (adjustA db.tasks t.id (fun _ => t)) k = lookupA db.tasks k
  exact lookupA_adjustA_other db.tasks k t.id _ h

/-- C3: an /analyze admission whose non-blocking enqueue finds the work
queue full always ends with the persisted task record failed and carrying
the (non-empty) queue-full error message: nothing is silently dropped, and
the body finishes without retrying. -/
theorem queue_full_marks_task_failed :
    ∀ (db : DBState) (ch : Channel) (taskID : String) (task : AnalysisTaskModel),
      getAnalysisTask db taskID = some task →
      channelFull ch = true →
      ∃ t', getAnalysisTask (processAnalysisTaskBody db ch taskID).1 taskID = some t'
        ∧ t'.status = AnalysisStatus.failed
        ∧ t'.errorMessage = "Analysis channel is full, please try again later"
        ∧ ¬ t'.errorMessage = "" := by
  intro db ch taskID task htask hfull
  unfold processAnalysisTaskBody
  rw [htask]
  simp only [trySend_full _ _ hfull]
  rw [if_neg (show ¬ false = true by simp)]
  unfold resolveUserID
  cases hu : getUserByUsername db task.username with
  | none =>
    simp only [getUserByUsername_updateProgress, hu]
    simp [htask]
  | some user =>
    simp only [getUserByUsername_updateProgress, hu]
    simp only [getAnalysisTask_setError, getAnalysisTask_updateProgress]
    by_cases hid : ({ task with userID := user.id } : AnalysisTaskModel).id = taskID
    · rw [getAnalysisTask_updateTask_at _ _ _ hid, getAnalysisTask_updateProgress, htask]
      exact ⟨_, rfl, rfl, rfl,
        show ¬ "Analysis channel is full, please try again later" = "" by decide⟩
    · rw [getAnalysisTask_updateTask_other _ _ _ hid, getAnalysisTask_updateProgress, htask]
      exact ⟨_, rfl, rfl, rfl,
        show ¬ "Analysis channel is full, please try again later" = "" by decide⟩

/-- C3 witness: carolTask admitted against the concrete full channel ends
failed with the queue-full message. -/
theorem queue_full_marks_task_failed_witness :
    ∃ t', getAnalysisTask (processAnalysisTaskBody taskOnlyDb fullCh "t1").1 "t1" = some t'
      ∧ t'.status = AnalysisStatus.failed
      ∧ t'.errorMessage = "Analysis channel is full, please try again later"
      ∧ ¬ t'.errorMessage = "" :=
  queue_full_marks_task_failed taskOnlyDb fullCh "t1" carolTask (by rfl) (by rfl)

/-- C8: a username the store cannot resolve is non-fatal to admission: the
single-task body still reaches its enqueue, the work item carries the
placeholder internal ID "unknown_"+username, and the task's status is left
untouched; when resolution succeeds instead, the stored task record is
updated with the resolved user ID. -/
theorem unresolved_username_nonfatal_placeholder :
    (∀ (db : DBState) (ch : Channel) (taskID : String) (task : AnalysisTaskModel),
      getAnalysisTask db taskID = some task →
      getUserByUsername db task.username = none →
      getUserTweetForAnalysis db task.username = none →
      channelFull ch = false →
      ∃ t', getAnalysisTask (processAnalysisTaskBody db ch taskID).1 taskID = some t'
        ∧ t'.status = task.status
        ∧ ∃ m, (processAnalysisTaskBody db ch taskID).2.buffer = ch.buffer ++ [m]
            ∧ m.authorID = "unknown_" ++ task.username
            ∧ m.taskID = taskID)
    ∧ (∀ (db : DBState) (ch : Channel) (taskID : String) (task : AnalysisTaskModel)
        (user : UserModel),
      getAnalysisTask db taskID = some task →
      task.id = taskID →
      getUserByUsername db task.username = some user →
      ∃ t', getAnalysisTask (processAnalysisTaskBody db ch taskID).1 taskID = some t'
        ∧ t'.userID = user.id) := by
  constructor
  · intro db ch taskID task htask hu ht hroom
    unfold processAnalysisTaskBody
    rw [htask]
    unfold resolveUserID
    simp only [getUserByUsername_updateProgress, hu]
    simp only [getUserTweet_updateProgress, ht]
    simp only [trySend_notFull _ _ hroom]
    simp only [if_true]
    simp only [getAnalysisTask_updateProgress, htask]
    exact ⟨_, rfl, rfl, ⟨_, rfl, rfl, rfl⟩⟩
  · intro db ch taskID task user htask hid hu
    unfold processAnalysisTaskBody
    rw [htask]
    unfold resolveUserID
    simp only [getUserByUsername_updateProgress, hu]
    by_cases hfull : channelFull ch = true
    · simp only [trySend_full _ _ hfull]
      rw [if_neg (show ¬ false = true by simp)]
      simp only [getAnalysisTask_setError, getAnalysisTask_updateProgress]
      rw [getAnalysisTask_updateTask_at _ _ _
        (show ({ task with userID := user.id } : AnalysisTaskModel).id = taskID from hid)]
      rw [getAnalysisTask_updateProgress, htask]
      exact ⟨_, rfl, rfl⟩
    · have hroom : channelFull ch = false := by
        simpa using hfull
      simp only [trySend_notFull _ _ hroom]
      simp only [if_true]
      simp only [getAnalysisTask_updateProgress]
      rw [getAnalysisTask_updateTask_at _ _ _
        (show ({ task with userID := user.id } : AnalysisTaskModel).id = taskID from hid)]
      rw [getAnalysisTask_updateProgress, htask]
      exact ⟨_, rfl, rfl⟩

/-- C8 witness: "carol" resolves to no user and has no stored tweet, yet
admission proceeds and enqueues the placeholder work item. -/
theorem unresolved_username_nonfatal_placeholder_witness :
    ∃ t', getAnalysisTask (processAnalysisTaskBody taskOnlyDb roomCh "t1").1 "t1" = some t'
      ∧ t'.status = carolTask.status
      ∧ ∃ m, (processAnalysisTaskBody taskOnlyDb roomCh "t1").2.buffer = roomCh.buffer ++ [m]
          ∧ m.authorID = "unknown_" ++ carolTask.username
          ∧ m.taskID = "t1" :=
  unresolved_username_nonfatal_placeholder.1 taskOnlyDb roomCh "t1" carolTask
    (by rfl) (by rfl) (by rfl) (by rfl)
